import Mathlib

/-!
Formal model of the session-orchestration core of the
openclaw-claude-code-plugin repository (Session state machine,
SessionManager pool, NotificationRouter, channel resolver), as a shallow
embedding in Lean 4, together with theorems settling the specification
claims about it.

Sources embedded:
- src/session.ts          (Session state machine, output buffer, catchup)
- src/session-manager.ts  (pool, spawn cap, persisted index, metrics)
- src/notifications.ts    (router: debounce, budget/completion notifications)
- src/shared.ts           (resolveAgentChannel, generateSessionName)

Modelling conventions:
- JavaScript `Map`s are association lists; `Map.set` replaces the first
  binding of the key in place (or appends), `Map.delete` removes it, as in
  JS insertion-order semantics.
- JavaScript `Set`s are duplicate-free lists in insertion order.
- Timestamps (`Date.now()`) are naturals supplied as explicit `now`
  arguments; timer callbacks (safety-net) are modelled as explicit
  operations guarded exactly as the callback body is.
- Costs (floating point in JS) are modelled as naturals: every claim
  about metrics concerns counting/summing, never float rounding.
- Event callbacks (`onOutput`, `onComplete`, ...) are modelled as an
  `Effect` list returned by each step; the SessionManager wiring that
  spawn() installs is a separate dispatch function, as in the source.
-/

namespace ClaudePlugin

/-! ## Association-list model of JavaScript Map -/

/-- Lookup the first binding of a key (JS `Map.get`). -/
def lookupAssoc {κ α : Type} [DecidableEq κ] : List (κ × α) → κ → Option α
  | [], _ => none
  | (k', v) :: rest, k => if k' = k then some v else lookupAssoc rest k

/-- Replace the first binding of a key in place, or append a new binding
(JS `Map.set`, which keeps the original insertion position). -/
def setAssoc {κ α : Type} [DecidableEq κ] : List (κ × α) → κ → α → List (κ × α)
  | [], k, v => [(k, v)]
  | (k', v') :: rest, k, v =>
      if k' = k then (k, v) :: rest else (k', v') :: setAssoc rest k v

/-- Remove the first binding of a key (JS `Map.delete`). -/
def eraseAssoc {κ α : Type} [DecidableEq κ] : List (κ × α) → κ → List (κ × α)
  | [], _ => []
  | (k', v) :: rest, k => if k' = k then rest else (k', v) :: eraseAssoc rest k

/-! ## Duplicate-free list model of JavaScript Set -/

/-- Add an element unless already present (JS `Set.add`). -/
def insertIfAbsent (l : List String) (x : String) : List String :=
  if x ∈ l then l else l ++ [x]

/-- Build a JS `Set` from a list, keeping first occurrences in order
(JS `new Set(list)` construction plus subsequent `add` calls). -/
def jsSetOfList (l : List String) : List String :=
  l.foldl insertIfAbsent []

/-! ## String primitives

Kernel-computable char-list implementations of the JavaScript string
operations used by the source (`startsWith`, `split`, `toLowerCase`). -/

/-- Prefix test on char lists. -/
def isPrefixChars : List Char → List Char → Bool
  | [], _ => true
  | _ :: _, [] => false
  | a :: as, b :: bs => a = b && isPrefixChars as bs

/-- JS `String.startsWith`. -/
def strStartsWith (s pre : String) : Bool :=
  isPrefixChars pre.toList s.toList

/-- Split a char list at every separator char, keeping empty chunks
(as JS `split` with a single-char or single-class separator does). -/
def splitOnChar (p : Char → Bool) (l : List Char) : List (List Char) :=
  l.foldr
    (fun c acc =>
      if p c then [] :: acc
      else
        match acc with
        | [] => [[c]]
        | a :: rest => (c :: a) :: rest)
    [[]]

/-- JS `String.split` with a single-char(-class) separator. -/
def strSplit (p : Char → Bool) (s : String) : List String :=
  (splitOnChar p s.toList).map List.asString

/-- JS `String.toLowerCase` (ASCII, which is all the source relies on). -/
def strToLower (s : String) : String :=
  (s.toList.map Char.toLower).asString

/-! ## Channel resolver (src/shared.ts) -/

/-- Strip trailing slashes, as the regex replace of `/\/+$/` with the
empty string in `resolveAgentChannel`. -/
def normalise (p : String) : String :=
  ((p.toList.reverse.dropWhile (fun c => c = '/')).reverse).asString

/-- Translation of `resolveAgentChannel` (src/shared.ts): walk the
`agentChannels` entries in object order and return the channel of the
first entry whose normalised path equals the normalised workdir or is a
proper path ancestor of it. -/
def resolveAgentChannel (agentChannels : Option (List (String × String)))
    (workdir : String) : Option String :=
  match agentChannels with
  | none => none
  | some mapping =>
    let normWorkdir := normalise workdir
    mapping.findSome? (fun p =>
      if normWorkdir = normalise p.1 ∨ strStartsWith normWorkdir (normalise p.1 ++ "/")
      then some p.2 else none)

/-- The lookup rule as documented (AGENT_CHANNELS.md, docs/safety.md,
spec §4.5): among all entries whose normalised path equals or is a proper
ancestor of the query path, the one with the longest normalised path
wins. Stated from the documentation, for comparison with
`resolveAgentChannel` above. -/
def resolveAgentChannelLongest (agentChannels : Option (List (String × String)))
    (workdir : String) : Option String :=
  match agentChannels with
  | none => none
  | some mapping =>
    let normWorkdir := normalise workdir
    let hits := mapping.filter (fun p =>
      normWorkdir = normalise p.1 ∨ strStartsWith normWorkdir (normalise p.1 ++ "/"))
    (hits.foldl (fun best p =>
      match best with
      | none => some p
      | some b => if (normalise b.1).length < (normalise p.1).length then some p else best)
      none).map Prod.snd

/-! ## Session name generation (src/shared.ts) -/

/-- Stop words filtered out of generated session names. -/
def STOP_WORDS : List String :=
  ["a", "an", "the", "is", "are", "was", "were", "be", "been", "being",
   "have", "has", "had", "do", "does", "did", "will", "would", "could",
   "should", "may", "might", "shall", "can", "need", "must",
   "i", "me", "my", "we", "our", "you", "your", "it", "its", "he", "she",
   "to", "of", "in", "for", "on", "with", "at", "by", "from", "as",
   "into", "through", "about", "that", "this", "these", "those",
   "and", "or", "but", "if", "then", "so", "not", "no",
   "please", "just", "also", "very", "all", "some", "any", "each",
   "make", "write", "create", "build", "implement", "add", "update"]

/-- Whitespace characters recognised by the splitting regexes. -/
def isWs (c : Char) : Bool :=
  c = ' ' ∨ c = '\t' ∨ c = '\n' ∨ c = '\r'

/-- Characters kept by the cleaning regex `[^a-z0-9\s-]` (after
lowercasing); everything else is replaced by a space. -/
def isNameChar (c : Char) : Bool :=
  ('a' ≤ c ∧ c ≤ 'z') ∨ ('0' ≤ c ∧ c ≤ '9') ∨ isWs c ∨ c = '-'

/-- Translation of `generateSessionName` (src/shared.ts): lowercase,
replace characters outside `[a-z0-9\s-]` with spaces, split on
whitespace, drop one-character words and stop words, keep at most three
keywords joined by dashes.  (JS `split(/\s+/)` can leave empty tokens at
the edges; per-character splitting leaves them between runs too — both
are removed by the length filter, so the keyword lists coincide.) -/
def generateSessionName (prompt : String) : String :=
  let cleaned :=
    (prompt.toList.map Char.toLower).map (fun c => if isNameChar c then c else ' ')
  let words :=
    ((splitOnChar isWs cleaned).map List.asString).filter
      (fun w => 1 < w.length ∧ w ∉ STOP_WORDS)
  let keywords := words.take 3
  if keywords = [] then "session" else String.intercalate "-" keywords

/-! ## Session (src/session.ts) -/

/-- Session lifecycle states (src/types.ts `SessionStatus`). -/
inductive SessionStatus where
  | starting
  | running
  | completed
  | failed
  | killed
deriving DecidableEq, Repr

/-- A status is terminal when it is completed, failed or killed. -/
def SessionStatus.isTerminal : SessionStatus → Bool
  | .completed => true
  | .failed => true
  | .killed => true
  | _ => false

/-- A status counts towards the pool's concurrency cap when it is
starting or running (`SessionManager.spawn` active-count filter). -/
def SessionStatus.isActive : SessionStatus → Bool
  | .starting => true
  | .running => true
  | _ => false

/-- Result payload stored from a `result` SDK message. -/
structure TurnResult where
  subtype : String
  durationMs : Nat
  totalCostUsd : Nat
  numTurns : Nat
  result : Option String := none
  isError : Bool := false
deriving DecidableEq, Repr

/-- Session configuration (src/types.ts `SessionConfig`).  Fields that
are pure pass-through to the external SDK call (systemPrompt,
allowedTools, permissionMode, resume/fork ids) are omitted: no claim
observes them. -/
structure SessionConfig where
  prompt : String
  workdir : String
  name : Option String := none
  model : Option String := none
  maxBudgetUsd : Nat := 5
  originChannel : Option String := none
  multiTurn : Option Bool := none
deriving DecidableEq, Repr

/-- The Session state (class fields of `Session` in src/session.ts).
`hasMessageStream` records whether `this.messageStream` is defined (set
by `start()` for multi-turn sessions), `streamEnded` whether `end()` was
called on it, and `hasStreamInput` whether the SDK query handle exposes
`streamInput` (external capability, false by default). -/
structure Session where
  id : String
  name : String
  claudeSessionId : Option String := none
  prompt : String
  workdir : String
  model : Option String := none
  maxBudgetUsd : Nat := 5
  multiTurn : Bool := false
  hasMessageStream : Bool := false
  streamEnded : Bool := false
  hasStreamInput : Bool := false
  status : SessionStatus := .starting
  error : Option String := none
  startedAt : Nat
  completedAt : Option Nat := none
  outputBuffer : List String := []
  result : Option TurnResult := none
  costUsd : Nat := 0
  foregroundChannels : List String := []
  fgOutputOffsets : List (String × Nat) := []
  originChannel : Option String := none
  budgetExhausted : Bool := false
  waitingForInputFired : Bool := false
deriving DecidableEq, Repr

/-- Output-buffer cap (`OUTPUT_BUFFER_MAX` in src/session.ts). -/
def OUTPUT_BUFFER_MAX : Nat := 200

/-- Append one text entry and trim the buffer to the cap, dropping the
oldest entries (`outputBuffer.push` + `splice` in `consumeMessages`). -/
def pushBuf (buf : List String) (t : String) : List String :=
  let b := buf ++ [t]
  if OUTPUT_BUFFER_MAX < b.length then b.drop (b.length - OUTPUT_BUFFER_MAX) else b

/-- The `Session` constructor (`new Session(config, name)`); `id` is the
externally drawn `nanoid(8)` and `now` is `Date.now()`. -/
def Session.create (config : SessionConfig) (name : String) (id : String)
    (now : Nat) : Session :=
  { id := id, name := name, prompt := config.prompt, workdir := config.workdir,
    model := config.model, maxBudgetUsd := config.maxBudgetUsd,
    originChannel := config.originChannel,
    multiTurn := config.multiTurn.getD false, startedAt := now }

/-- The successful path of `Session.start()`: multi-turn sessions get a
message stream (seeded with the prompt); the status stays `starting`
until the SDK init message arrives.  Engine-start failure is modelled
separately by `Session.handleStreamError`. -/
def Session.start (s : Session) : Session :=
  if s.multiTurn then { s with hasMessageStream := true } else s

/-- Content blocks of an SDK assistant message. -/
inductive CBlock where
  | text (t : String)
  | toolUse (name : String)
deriving DecidableEq, Repr

/-- SDK messages consumed by `consumeMessages`; messages of other types
(user echoes, partial stream events) only reset the safety-net timer. -/
inductive EngineMsg where
  | init (sessionId : String)
  | assistant (blocks : List CBlock)
  | result (r : TurnResult)
  | otherMsg
deriving DecidableEq, Repr

/-- Callback invocations emitted by a session step (the `onOutput`,
`onToolUse`, `onBudgetExhausted`, `onComplete`, `onWaitingForInput`
fields assigned by `SessionManager.spawn`). -/
inductive Effect where
  | output (t : String)
  | toolUse (name : String)
  | budgetCallback
  | completeCallback
  | waitingCallback
deriving DecidableEq, Repr

/-- Processing of the content blocks of one assistant message: text
blocks are appended to the (trimmed) buffer and fire `onOutput`;
tool-use blocks fire `onToolUse`. -/
def Session.handleBlocks (s : Session) : List CBlock → Session × List Effect
  | [] => (s, [])
  | .text t :: rest =>
      let s1 := { s with outputBuffer := pushBuf s.outputBuffer t }
      let (s2, effs) := s1.handleBlocks rest
      (s2, .output t :: effs)
  | .toolUse n :: rest =>
      let (s2, effs) := s.handleBlocks rest
      (s2, .toolUse n :: effs)

/-- One iteration of the `consumeMessages` loop body, processing a
single SDK message.  All state mutations of the `result` branch happen
before its callbacks fire, so returning the final state together with
the ordered effect list is observationally faithful. -/
def Session.handleMessage (now : Nat) (s : Session) :
    EngineMsg → Session × List Effect
  | .init sid =>
      ({ s with claudeSessionId := some sid, status := .running }, [])
  | .assistant blocks =>
      Session.handleBlocks { s with waitingForInputFired := false } blocks
  | .result r =>
      let s := { s with result := some r, costUsd := r.totalCostUsd }
      if s.multiTurn ∧ s.hasMessageStream ∧ r.subtype = "success" then
        -- multi-turn end of turn: stay running, fire waiting-for-input (gated)
        if ¬ s.waitingForInputFired then
          ({ s with waitingForInputFired := true }, [.waitingCallback])
        else (s, [])
      else
        let s := { s with
          status := if r.subtype = "success" then .completed else .failed,
          completedAt := some now,
          streamEnded := s.streamEnded ∨ s.hasMessageStream }
        if r.subtype = "error_max_budget_usd" then
          ({ s with budgetExhausted := true }, [.budgetCallback, .completeCallback])
        else (s, [.completeCallback])
  | .otherMsg => (s, [])

/-- Body of the safety-net timer callback (`resetSafetyNetTimer`): fires
`onWaitingForInput` only while running and only if the one-shot flag is
not already set.  The timer's scheduling is external; this models the
callback running. -/
def Session.safetyNetFire (s : Session) : Session × List Effect :=
  if s.status = .running ∧ ¬ s.waitingForInputFired then
    ({ s with waitingForInputFired := true }, [.waitingCallback])
  else (s, [])

/-- Translation of `Session.sendMessage`: fails (second component) when
the session is not running; otherwise clears the waiting-for-input flag
and routes the text into the stream, the one-shot `streamInput`
injection, or fails when neither is available (the flag stays cleared in
that case, as in the source). -/
def Session.sendMessage (s : Session) (_text : String) :
    Session × Option String :=
  if s.status ≠ .running then
    (s, some "Session is not running")
  else
    let s1 := { s with waitingForInputFired := false }
    if s1.multiTurn ∧ s1.hasMessageStream then (s1, none)
    else if s1.hasStreamInput then (s1, none)
    else (s1, some "Session does not support multi-turn messaging")

/-- Translation of `Session.kill`: a no-op unless starting or running;
otherwise marks the session killed, stamps the completion time and ends
the message stream.  It fires no callbacks. -/
def Session.kill (s : Session) (now : Nat) : Session :=
  if s.status ≠ .starting ∧ s.status ≠ .running then s
  else { s with status := .killed, completedAt := some now,
                streamEnded := s.streamEnded ∨ s.hasMessageStream }

/-- The catch handler around the `consumeMessages` loop (in `start()`):
an uncaught stream error marks the session failed only if it is not
already terminal. -/
def Session.handleStreamError (s : Session) (now : Nat) (msg : String) : Session :=
  if s.status = .starting ∨ s.status = .running then
    { s with status := .failed, error := some msg, completedAt := some now }
  else s

/-- Translation of `Session.getOutput`: no argument returns a copy of
the buffer; `n` returns `slice(-n)`.  JavaScript `slice(-0)` is
`slice(0)`, the whole buffer. -/
def Session.getOutput (s : Session) (lines : Option Nat) : List String :=
  match lines with
  | none => s.outputBuffer
  | some n =>
      if n = 0 then s.outputBuffer
      else s.outputBuffer.drop (s.outputBuffer.length - n)

/-- Translation of `Session.getCatchupOutput`: entries past the
channel's last-seen offset (offset 0 when the channel was never seen);
empty when the offset is at or past the end of the buffer. -/
def Session.getCatchupOutput (s : Session) (channelId : String) : List String :=
  let lastOffset := (lookupAssoc s.fgOutputOffsets channelId).getD 0
  if s.outputBuffer.length ≤ lastOffset then []
  else s.outputBuffer.drop lastOffset

/-- Translation of `Session.markFgOutputSeen`: record that the channel
has seen the whole current buffer. -/
def Session.markFgOutputSeen (s : Session) (channelId : String) : Session :=
  { s with fgOutputOffsets := setAssoc s.fgOutputOffsets channelId s.outputBuffer.length }

/-- Translation of `Session.saveFgOutputOffset` (same assignment as
`markFgOutputSeen`, called when backgrounding). -/
def Session.saveFgOutputOffset (s : Session) (channelId : String) : Session :=
  { s with fgOutputOffsets := setAssoc s.fgOutputOffsets channelId s.outputBuffer.length }

/-! ## Session-level operations and traces -/

/-- Operations that can hit a single session: SDK messages from the
consumption loop, the safety-net timer callback, an external kill, a
sendMessage call, and the foreground offset bookkeeping calls. -/
inductive SOp where
  | msg (now : Nat) (m : EngineMsg)
  | safetyNet
  | kill (now : Nat)
  | send (text : String)
  | streamErr (now : Nat) (emsg : String)
  | markSeen (ch : String)
  | saveOffset (ch : String)
deriving DecidableEq, Repr

/-- Step a session by one operation, collecting emitted callbacks. -/
def stepS (s : Session) : SOp → Session × List Effect
  | .msg now m => s.handleMessage now m
  | .safetyNet => s.safetyNetFire
  | .kill now => (s.kill now, [])
  | .send t => ((s.sendMessage t).1, [])
  | .streamErr now emsg => (s.handleStreamError now emsg, [])
  | .markSeen ch => (s.markFgOutputSeen ch, [])
  | .saveOffset ch => (s.saveFgOutputOffset ch, [])

/-- Run a list of session operations, concatenating emitted callbacks. -/
def runS (s : Session) : List SOp → Session × List Effect
  | [] => (s, [])
  | op :: ops =>
      let (s1, e1) := stepS s op
      let (s2, e2) := runS s1 ops
      (s2, e1 ++ e2)

/-- Operations that clear the waiting-for-input one-shot flag: assistant
engine events (`consumeMessages` clears it on every assistant message,
covering output and tool-use) and `sendMessage` calls. -/
def clearsWaitingFlag : SOp → Bool
  | .msg _ (.assistant _) => true
  | .send _ => true
  | _ => false

/-! ## SessionManager (src/session-manager.ts) -/

/-- Retention window for terminal pooled sessions (`CLEANUP_MAX_AGE_MS`). -/
def CLEANUP_MAX_AGE_MS : Nat := 60 * 60 * 1000

/-- Persisted session snapshot (`PersistedSessionInfo`). -/
structure PersistedSessionInfo where
  claudeSessionId : String
  name : String
  prompt : String
  workdir : String
  model : Option String := none
  completedAt : Option Nat := none
  status : SessionStatus
  costUsd : Nat
deriving DecidableEq, Repr

/-- Entry of the most-expensive-session metric. -/
structure MostExpensive where
  id : String
  name : String
  costUsd : Nat
  prompt : String
deriving DecidableEq, Repr

/-- Aggregated metrics (`SessionMetrics`); `costPerDay` keys are days
abstracting the `YYYY-MM-DD` date string of the timestamp. -/
structure SessionMetrics where
  totalCostUsd : Nat := 0
  costPerDay : List (Nat × Nat) := []
  completedCount : Nat := 0
  failedCount : Nat := 0
  killedCount : Nat := 0
  totalLaunched : Nat := 0
  totalDurationMs : Nat := 0
  sessionsWithDuration : Nat := 0
  mostExpensive : Option MostExpensive := none
deriving DecidableEq, Repr

/-- Day key of a millisecond timestamp (abstracts
`new Date(t).toISOString().slice(0, 10)`). -/
def dayKey (t : Nat) : Nat := t / 86400000

/-- Translation of `recordSessionMetrics`: add the session's cost to
the totals and the day bucket, bump the terminal-status counter, add the
duration when a completion time exists, and update the most-expensive
entry on a strictly greater cost. -/
def recordSessionMetrics (met : SessionMetrics) (s : Session) : SessionMetrics :=
  let cost := s.costUsd
  let met := { met with totalCostUsd := met.totalCostUsd + cost }
  let dk := dayKey (s.completedAt.getD s.startedAt)
  let met := { met with
    costPerDay := setAssoc met.costPerDay dk ((lookupAssoc met.costPerDay dk).getD 0 + cost) }
  let met :=
    match s.status with
    | .completed => { met with completedCount := met.completedCount + 1 }
    | .failed => { met with failedCount := met.failedCount + 1 }
    | .killed => { met with killedCount := met.killedCount + 1 }
    | _ => met
  let met :=
    match s.completedAt with
    | some c => { met with totalDurationMs := met.totalDurationMs + (c - s.startedAt),
                           sessionsWithDuration := met.sessionsWithDuration + 1 }
    | none => met
  let beat :=
    match met.mostExpensive with
    | none => true
    | some me => me.costUsd < cost
  if beat then
    { met with mostExpensive :=
        (some { id := s.id, name := s.name, costUsd := cost,
                prompt := if 80 < s.prompt.length then s.prompt.take 80 ++ "..." else s.prompt }) }
  else met

/-- Kinds of outbound messages, distinguishing router notifications
(stream flushes, tool indicators, completion / budget / waiting notices)
from the `execFile`-based external wake paths (`triggerAgentEvent`,
`triggerWaitingForInputEvent`). -/
inductive NotifKind where
  | streamFlush
  | toolUse
  | completion
  | budget
  | waiting
  | agentEvent
  | wakeEvent
deriving DecidableEq, Repr

/-- One outbound message: destination channel and kind. -/
abbrev Delivery := String × NotifKind

/-- The SessionManager plus the NotificationRouter's debounce state
(`debounceMap`, keyed by session id and channel id; buffered text only,
the timer handle being external). -/
structure SessionManager where
  sessions : List (String × Session) := []
  maxSessions : Nat := 5
  maxPersistedSessions : Nat := 50
  persistedSessions : List (String × PersistedSessionInfo) := []
  metrics : SessionMetrics := {}
  debounce : List ((String × String) × String) := []
deriving DecidableEq, Repr

/-- Count of pooled sessions in a starting or running state (the filter
at the top of `SessionManager.spawn`). -/
def countActive (l : List (String × Session)) : Nat :=
  (l.filter (fun p => p.2.status.isActive)).length

/-- Active-session count of a manager. -/
def SessionManager.activeCount (m : SessionManager) : Nat :=
  countActive m.sessions

/-! ### NotificationRouter (src/notifications.ts) -/

/-- The origin channel as added to notification target sets: JS
`if (originChannel) channels.add(...)` skips undefined and the empty
string. -/
def originList (s : Session) : List String :=
  match s.originChannel with
  | none => []
  | some oc => if oc = "" then [] else [oc]

/-- Notification target set for completion / budget / waiting events:
`new Set(session.foregroundChannels)` plus the origin channel. -/
def notifChannels (s : Session) : List String :=
  jsSetOfList (s.foregroundChannels ++ originList s)

/-- Translation of `flushDebounced`: deliver the pending buffer for one
(session, channel) key if nonempty, and drop the entry. -/
def flushDebounced (m : SessionManager) (sid ch : String) :
    SessionManager × List Delivery :=
  match lookupAssoc m.debounce (sid, ch) with
  | none => (m, [])
  | some buf =>
      ({ m with debounce := eraseAssoc m.debounce (sid, ch) },
       if buf = "" then [] else [(ch, .streamFlush)])

/-- Flush the debounce buffers of a list of channels in order. -/
def flushChannels (m : SessionManager) (sid : String) :
    List String → SessionManager × List Delivery
  | [] => (m, [])
  | ch :: rest =>
      let (m1, d1) := flushDebounced m sid ch
      let (m2, d2) := flushChannels m1 sid rest
      (m2, d1 ++ d2)

/-- Translation of `appendDebounced`: append the text to the pending
buffer for the key, creating it when absent (timer scheduling is
external). -/
def appendDebounced (m : SessionManager) (sid ch text : String) : SessionManager :=
  match lookupAssoc m.debounce (sid, ch) with
  | some buf => { m with debounce := setAssoc m.debounce (sid, ch) (buf ++ text) }
  | none => { m with debounce := setAssoc m.debounce (sid, ch) text }

/-- Translation of `NotificationRouter.onAssistantText`: nothing without
foreground channels, else append to each foreground channel's debounce
buffer. -/
def onAssistantText (m : SessionManager) (s : Session) (text : String) : SessionManager :=
  if s.foregroundChannels = [] then m
  else s.foregroundChannels.foldl (fun acc ch => appendDebounced acc s.id ch text) m

/-- Translation of `NotificationRouter.onToolUse`: nothing without
foreground channels, else flush pending text then send the compact
indicator to each foreground channel. -/
def onToolUse (m : SessionManager) (s : Session) :
    SessionManager × List Delivery :=
  if s.foregroundChannels = [] then (m, [])
  else
    s.foregroundChannels.foldl
      (fun acc ch =>
        let (m1, d1) := flushDebounced acc.1 s.id ch
        (m1, acc.2 ++ d1 ++ [(ch, .toolUse)]))
      (m, [])

/-- Translation of `cleanupSession`: drop all debounce entries of the
session (the long-running reminder set is not modelled; no claim
observes it). -/
def cleanupSessionR (m : SessionManager) (sid : String) : SessionManager :=
  { m with debounce := m.debounce.filter (fun e => e.1.1 ≠ sid) }

/-- Translation of `NotificationRouter.onSessionComplete`: flush
foreground buffers, send the completion notification to the foreground
set plus the origin channel, then clean up the session's router state. -/
def onSessionComplete (m : SessionManager) (s : Session) :
    SessionManager × List Delivery :=
  let (m1, d1) := flushChannels m s.id s.foregroundChannels
  let targets := notifChannels s
  (cleanupSessionR m1 s.id, d1 ++ targets.map (fun ch => (ch, NotifKind.completion)))

/-- Translation of `NotificationRouter.onBudgetExhausted`: same shape as
completion with the budget-limit message. -/
def onBudgetExhausted (m : SessionManager) (s : Session) :
    SessionManager × List Delivery :=
  let (m1, d1) := flushChannels m s.id s.foregroundChannels
  let targets := notifChannels s
  (cleanupSessionR m1 s.id, d1 ++ targets.map (fun ch => (ch, NotifKind.budget)))

/-- Translation of `NotificationRouter.onWaitingForInput`: flush
foreground buffers, then send a waiting notice (full preview on
background channels, compact on foreground ones — same kind here) to the
foreground set plus the origin channel. -/
def onWaitingForInput (m : SessionManager) (s : Session) :
    SessionManager × List Delivery :=
  let (m1, d1) := flushChannels m s.id s.foregroundChannels
  let targets := notifChannels s
  (m1, d1 ++ targets.map (fun ch => (ch, NotifKind.waiting)))

/-- Destination of `routeEventMessage` (the `execFile` wake path): the
origin channel when it is a well-formed multi-segment channel string,
else the broadcast system event. -/
def routeTarget (s : Session) : String :=
  match s.originChannel with
  | none => "system-event"
  | some oc =>
      if oc = "" ∨ oc = "unknown" then "system-event"
      else
        let parts := strSplit (fun c => c = ':') oc
        if parts.length < 2 then "system-event"
        else if 3 ≤ parts.length then oc
        else if parts.getD 0 "" ≠ "" ∧ parts.getD 1 "" ≠ "" then oc
        else "system-event"

/-- Translation of `SessionManager.persistSession`: record metrics
unless the session id is already in the persisted index, then (only
when a Claude session id exists) store the snapshot under the internal
id, the name and the Claude session id. -/
def persistSession (m : SessionManager) (s : Session) : SessionManager :=
  let alreadyPersisted := (lookupAssoc m.persistedSessions s.id).isSome
  let m1 :=
    if ¬ alreadyPersisted then { m with metrics := recordSessionMetrics m.metrics s }
    else m
  match s.claudeSessionId with
  | none => m1
  | some cid =>
      let info : PersistedSessionInfo :=
        { claudeSessionId := cid, name := s.name, prompt := s.prompt,
          workdir := s.workdir, model := s.model, completedAt := s.completedAt,
          status := s.status, costUsd := s.costUsd }
      { m1 with persistedSessions :=
          (setAssoc (setAssoc (setAssoc m1.persistedSessions s.id info) s.name info)
            cid info) }

/-! ### Manager-side wiring of session callbacks (`SessionManager.spawn`) -/

/-- Dispatch one session callback through the wiring installed by
`spawn`.  The TS callbacks close over the live session object (aliased
by the pool map), so the session value is threaded through and written
back to the pool by the caller. -/
def applyEffect (m : SessionManager) (s : Session) :
    Effect → SessionManager × Session × List Delivery
  | .output text =>
      -- onOutput: stream to the router, then advance every foreground
      -- channel's catchup offset.
      let m1 := onAssistantText m s text
      let s1 := s.foregroundChannels.foldl (fun acc ch => acc.markFgOutputSeen ch) s
      (m1, s1, [])
  | .toolUse _ =>
      let (m1, ds) := onToolUse m s
      (m1, s, ds)
  | .budgetCallback =>
      let (m1, ds) := onBudgetExhausted m s
      (m1, s, ds)
  | .waitingCallback =>
      let (m1, ds) := onWaitingForInput m s
      (m1, s, ds ++ [(routeTarget s, .wakeEvent)])
  | .completeCallback =>
      let m1 := persistSession m s
      let (m2, ds) :=
        if s.budgetExhausted then (m1, []) else onSessionComplete m1 s
      (m2, s, ds ++ [(routeTarget s, .agentEvent)])

/-- Dispatch a list of callbacks in order. -/
def applyEffects (m : SessionManager) (s : Session) :
    List Effect → SessionManager × Session × List Delivery
  | [] => (m, s, [])
  | e :: rest =>
      let (m1, s1, d1) := applyEffect m s e
      let (m2, s2, d2) := applyEffects m1 s1 rest
      (m2, s2, d1 ++ d2)

/-- Deliver one SDK message to a pooled session: run the
`consumeMessages` body, dispatch the emitted callbacks through the
spawn wiring, and write the session back into the pool. -/
def SessionManager.deliverMsg (m : SessionManager) (sid : String) (now : Nat)
    (emsg : EngineMsg) : SessionManager × List Delivery :=
  match lookupAssoc m.sessions sid with
  | none => (m, [])
  | some s =>
      let (s1, effs) := s.handleMessage now emsg
      let (m1, s2, ds) := applyEffects m s1 effs
      ({ m1 with sessions := setAssoc m1.sessions sid s2 }, ds)

/-- The safety-net timer callback of a pooled session, with its
waiting-for-input callback dispatched through the spawn wiring. -/
def SessionManager.safetyNet (m : SessionManager) (sid : String) :
    SessionManager × List Delivery :=
  match lookupAssoc m.sessions sid with
  | none => (m, [])
  | some s =>
      let (s1, effs) := s.safetyNetFire
      let (m1, s2, ds) := applyEffects m s1 effs
      ({ m1 with sessions := setAssoc m1.sessions sid s2 }, ds)

/-- A sendMessage call on a pooled session (claude_respond path). -/
def SessionManager.send (m : SessionManager) (sid : String) (text : String) :
    SessionManager :=
  match lookupAssoc m.sessions sid with
  | none => m
  | some s =>
      { m with sessions := setAssoc m.sessions sid (s.sendMessage text).1 }

/-- Capacity-error message thrown by `spawn`. -/
def maxSessionsMsg (cap : Nat) : String :=
  "Max sessions reached (" ++ toString cap ++ "). Kill a session first."

/-- Pick the first free suffixed name (the `while` loop of
`uniqueName`); fuel bounds the search, `existing.length + 1` suffices. -/
def firstFreeName (existing : List String) (base : String) :
    Nat → Nat → String
  | 0, i => base ++ "-" ++ toString i
  | fuel + 1, i =>
      let cand := base ++ "-" ++ toString i
      if cand ∈ existing then firstFreeName existing base fuel (i + 1) else cand

/-- Translation of `SessionManager.uniqueName`. -/
def SessionManager.uniqueName (m : SessionManager) (baseName : String) : String :=
  let existing := m.sessions.map (fun p => p.2.name)
  if baseName ∈ existing then
    firstFreeName existing baseName (existing.length + 1) 2
  else baseName

/-- Translation of `SessionManager.spawn`: reject with a capacity error
while the active count is at the cap — before any state is touched —
else compute a unique name, register the session, count the launch and
start it (the callback wiring is `applyEffect`).  `id` is the externally
drawn `nanoid(8)`, `now` is `Date.now()`. -/
def SessionManager.spawn (m : SessionManager) (config : SessionConfig)
    (id : String) (now : Nat) : Except String (SessionManager × Session) :=
  if m.maxSessions ≤ m.activeCount then
    .error (maxSessionsMsg m.maxSessions)
  else
    let baseName :=
      match config.name with
      | some n => if n = "" then generateSessionName config.prompt else n
      | none => generateSessionName config.prompt
    let name := m.uniqueName baseName
    let session := (Session.create config name id now).start
    .ok ({ m with
            sessions := setAssoc m.sessions session.id session,
            metrics := { m.metrics with totalLaunched := m.metrics.totalLaunched + 1 } },
         session)

/-- Translation of `SessionManager.kill`: false for an unknown id; else
kill the session, record metrics when its id is not yet persisted,
persist, notify completion through the router and fire the agent wake
event. -/
def SessionManager.kill (m : SessionManager) (id : String) (now : Nat) :
    SessionManager × Bool × List Delivery :=
  match lookupAssoc m.sessions id with
  | none => (m, false, [])
  | some s =>
      let s1 := s.kill now
      let m1 := { m with sessions := setAssoc m.sessions id s1 }
      let m2 :=
        if (lookupAssoc m1.persistedSessions s1.id).isSome then m1
        else { m1 with metrics := recordSessionMetrics m1.metrics s1 }
      let m3 := persistSession m2 s1
      let (m4, ds) := onSessionComplete m3 s1
      (m4, true, ds ++ [(routeTarget s1, .agentEvent)])

/-- Translation of `SessionManager.killAll`: kill every starting or
running session (no persistence, metrics or notification). -/
def SessionManager.killAll (m : SessionManager) (now : Nat) : SessionManager :=
  { m with sessions := m.sessions.map (fun p =>
      (p.1, if p.2.status = .starting ∨ p.2.status = .running
            then p.2.kill now else p.2)) }

/-- Stable insertion (descending by completion time, `?? 0`) modelling
the JS stable sort comparator of `listPersistedSessions`. -/
def insertByCompletedDesc (x : PersistedSessionInfo) :
    List PersistedSessionInfo → List PersistedSessionInfo
  | [] => [x]
  | y :: ys =>
      if (y.completedAt.getD 0) < (x.completedAt.getD 0) then x :: y :: ys
      else y :: insertByCompletedDesc x ys

/-- Translation of `listPersistedSessions`: deduplicate the index values
by Claude session id (first occurrence in map order) and sort newest
first. -/
def SessionManager.listPersistedSessions (m : SessionManager) :
    List PersistedSessionInfo :=
  let dedup :=
    (m.persistedSessions.foldl
      (fun (acc : List String × List PersistedSessionInfo) kv =>
        if kv.2.claudeSessionId ∈ acc.1 then acc
        else (acc.1 ++ [kv.2.claudeSessionId], acc.2 ++ [kv.2]))
      ([], [])).2
  dedup.foldl (fun acc x => insertByCompletedDesc x acc) []

/-- Body of the removal loop of `SessionManager.cleanup`: a pooled
session whose (truthy) completion time is terminal and older than the
retention window is persisted and then dropped from the pool. -/
def cleanupStep (now : Nat) (acc : SessionManager) (p : String × Session) :
    SessionManager :=
  if (match p.2.completedAt with
      | some c => c ≠ 0 ∧ p.2.status.isTerminal ∧ CLEANUP_MAX_AGE_MS < now - c
      | none => False : Bool) then
    let acc1 := persistSession acc p.2
    { acc1 with sessions := eraseAssoc acc1.sessions p.1 }
  else acc

/-- Translation of `SessionManager.cleanup`: persist and drop pooled
sessions terminal for longer than the retention window, then evict the
oldest deduplicated persisted entries over the cap, removing every index
key that points at them. -/
def SessionManager.cleanup (m : SessionManager) (now : Nat) : SessionManager :=
  let m1 := m.sessions.foldl (cleanupStep now) m
  let unique := m1.listPersistedSessions
  if m1.maxPersistedSessions < unique.length then
    let toEvict := unique.drop m1.maxPersistedSessions
    { m1 with persistedSessions := (m1.persistedSessions.filter
        (fun kv => ¬ toEvict.any (fun info => info.claudeSessionId = kv.2.claudeSessionId))) }
  else m1

/-! ### Manager-level operations and traces -/

/-- Operations on the manager: spawns, kills, cleanup runs, SDK message
deliveries, safety-net timer fires and sendMessage calls. -/
inductive MOp where
  | spawn (config : SessionConfig) (id : String) (now : Nat)
  | kill (id : String) (now : Nat)
  | killAll (now : Nat)
  | cleanup (now : Nat)
  | deliver (sid : String) (now : Nat) (emsg : EngineMsg)
  | safetyNet (sid : String)
  | send (sid : String) (text : String)
deriving DecidableEq, Repr

/-- Step the manager by one operation (a throwing spawn leaves the
manager unchanged, as the exception propagates before any mutation). -/
def stepM (m : SessionManager) : MOp → SessionManager
  | .spawn config id now =>
      match m.spawn config id now with
      | .ok (m1, _) => m1
      | .error _ => m
  | .kill id now => (m.kill id now).1
  | .killAll now => m.killAll now
  | .cleanup now => m.cleanup now
  | .deliver sid now emsg => (m.deliverMsg sid now emsg).1
  | .safetyNet sid => (m.safetyNet sid).1
  | .send sid text => m.send sid text

/-- Run a list of manager operations. -/
def runM (m : SessionManager) (ops : List MOp) : SessionManager :=
  ops.foldl stepM m

/-- Engine-contract side condition on one operation: an SDK `init`
message is only ever delivered to a session still in its starting phase
(the engine sends `init` first, and aborted queries deliver no further
messages).  All other operations are unconstrained. -/
def validOp (m : SessionManager) : MOp → Bool
  | .deliver sid _ (.init _) =>
      match lookupAssoc m.sessions sid with
      | some s => s.status = .starting
      | none => true
  | _ => true

/-- An operation trace respecting the engine contract from a given
manager state. -/
def ValidRun : SessionManager → List MOp → Bool
  | _, [] => true
  | m, op :: ops => validOp m op && ValidRun (stepM m op) ops

/-- A delivery counts as a router notification of a unit of work (the
budget / completion notices of the visibility matrix), as opposed to
debounced stream flushes, tool indicators and the external wake paths. -/
def isRouterNotif (d : Delivery) : Bool :=
  d.2 == NotifKind.budget || d.2 == NotifKind.completion

/-! ## Invariant-friendly views of the manager state -/

/-- Two manager states agreeing on everything but the router's debounce
buffers.  The router notification helpers only touch the debounce
table. -/
def SameCore (m m' : SessionManager) : Prop :=
  m'.sessions = m.sessions ∧ m'.maxSessions = m.maxSessions
  ∧ m'.maxPersistedSessions = m.maxPersistedSessions
  ∧ m'.persistedSessions = m.persistedSessions ∧ m'.metrics = m.metrics

/-- Two manager states agreeing on the pool and the concurrency cap
(what the active-count invariant observes). -/
def SamePool (m m' : SessionManager) : Prop :=
  m'.sessions = m.sessions ∧ m'.maxSessions = m.maxSessions

/-! ## Concrete states used by witnesses and counterexamples

All of them are built by running the model itself from fresh
constructor states, so each is a reachable program state. -/

/-- Config of a multi-turn session launched from a Telegram origin. -/
def exCfg : SessionConfig :=
  { prompt := "fix the login bug", workdir := "/repo",
    originChannel := some "telegram:9", multiTurn := some true }

/-- Config of a single-turn session. -/
def exCfgSingle : SessionConfig :=
  { prompt := "build docs site", workdir := "/repo2",
    originChannel := some "telegram:9" }

/-- A successful end-of-turn result costing 3. -/
def exResSucc : TurnResult :=
  { subtype := "success", durationMs := 100, totalCostUsd := 3, numTurns := 1 }

/-- An execution-error result costing 4. -/
def exResErr : TurnResult :=
  { subtype := "error_during_execution", durationMs := 50, totalCostUsd := 4,
    numTurns := 2, isError := true }

/-- A budget-exhaustion result costing 5. -/
def exResBudget : TurnResult :=
  { subtype := "error_max_budget_usd", durationMs := 80, totalCostUsd := 5,
    numTurns := 3, isError := true }

/-- The multi-turn session right after `spawn` (constructed and
started). -/
def exSessT0 : Session := (Session.create exCfg "fix-login-bug" "s1" 0).start

/-- ... after the SDK init acknowledgment: running. -/
def exSessT1 : Session := (exSessT0.handleMessage 1 (.init "c1")).1

/-- ... after a successful end of turn: still running, cost 3, the
waiting-for-input one-shot flag set. -/
def exSessT2 : Session := (exSessT1.handleMessage 2 (.result exResSucc)).1

/-- ... after an error turn-result: failed (terminal), cost 4. -/
def exSessT3 : Session := (exSessT2.handleMessage 3 (.result exResErr)).1

/-- A running single-turn session. -/
def exSessSingle : Session :=
  ((Session.create exCfgSingle "build-docs-site" "s2" 0).start.handleMessage
    1 (.init "c2")).1

/-- The single-turn session after an external kill. -/
def exKilled : Session := exSessSingle.kill 5

/-- Manager with the multi-turn session spawned, initialised and one
successful turn behind it (running, cost recorded). -/
def exMgrRunning : SessionManager :=
  runM {} [.spawn exCfg "s1" 0, .deliver "s1" 1 (.init "c1"),
           .deliver "s1" 2 (.result exResSucc)]

/-- Manager whose session has additionally failed with an error result:
the completion callback has persisted it and recorded its metrics. -/
def exMgrTerminal : SessionManager :=
  runM {} [.spawn exCfg "s1" 0, .deliver "s1" 1 (.init "c1"),
           .deliver "s1" 2 (.result exResSucc), .deliver "s1" 3 (.result exResErr)]

/-- A manager at its concurrency cap (one active session, cap 1). -/
def exMgrFull : SessionManager :=
  runM { maxSessions := 1 } [.spawn exCfgSingle "s2" 0]

/-- The agent-channels table of the C3 counterexample: a parent
directory entry listed before a more specific child entry. -/
def exMapping : Option (List (String × String)) :=
  some [("/home/u/agent", "telegram:bot-a:1"), ("/home/u/agent/sub", "telegram:bot-b:2")]

/-- A session whose output buffer is at the 200-entry cap, reached by
200 output events. -/
def exSessFull : Session :=
  (runS exSessT1 (List.replicate 200 (SOp.msg 2 (.assistant [.text "x"])))).1

/-! ## Helper lemmas -/

theorem lookupAssoc_setAssoc_self {κ α : Type} [DecidableEq κ]
    (l : List (κ × α)) (k : κ) (v : α) :
    lookupAssoc (setAssoc l k v) k = some v := by
  induction l with
  | nil => simp [setAssoc, lookupAssoc]
  | cons p rest ih =>
      by_cases h : p.1 = k
      · simp [setAssoc, h, lookupAssoc]
      · simp [setAssoc, h, lookupAssoc, ih]

/-! ## Claim theorems -/

/-- C10: `getOutput 0` returns the entire output buffer (JavaScript
`slice(-0)` is `slice(0)`), not the empty list. -/
theorem getOutput_zero_returns_whole_buffer (s : Session) :
    s.getOutput (some 0) = s.outputBuffer := by
  simp [Session.getOutput]

/-- C3: the channel resolver returns the first matching table entry in
object insertion order, not the longest matching prefix.  With a parent
directory listed before a more specific child entry, a query inside the
child resolves to the parent's channel, while the longest-prefix rule
documented in AGENT_CHANNELS.md and the spec picks the child's. -/
theorem resolveAgentChannel_not_longest_prefix :
    resolveAgentChannel exMapping "/home/u/agent/sub" = some "telegram:bot-a:1"
    ∧ resolveAgentChannelLongest exMapping "/home/u/agent/sub" = some "telegram:bot-b:2"
    ∧ resolveAgentChannel exMapping "/home/u/agent/sub"
        ≠ resolveAgentChannelLongest exMapping "/home/u/agent/sub" :=
  ⟨by decide, by decide, by decide⟩

/-- C2: metrics are not recorded exactly once per session.
`SessionManager.kill` records them twice: once under its own
persisted-index guard and once more inside `persistSession`, whose
identical guard still sees the session as unpersisted.  Killing the
running session of `exMgrRunning` (accrued cost 3) leaves a
killed-session count of 2 and a total cost of 6. -/
theorem kill_records_metrics_twice :
    ((exMgrRunning.kill "s1" 100).1.metrics.killedCount = 2)
    ∧ ((exMgrRunning.kill "s1" 100).1.metrics.totalCostUsd = 6)
    ∧ exMgrRunning.metrics.killedCount = 0
    ∧ exMgrRunning.metrics.totalCostUsd = 0 :=
  ⟨by decide, by decide, by decide, by decide⟩

theorem handleBlocks_status (blocks : List CBlock) :
    ∀ (s : Session), (s.handleBlocks blocks).1.status = s.status := by
  induction blocks with
  | nil => intro s; simp [Session.handleBlocks]
  | cons b rest ih =>
      intro s
      cases b with
      | text t => simpa [Session.handleBlocks] using ih _
      | toolUse n => simpa [Session.handleBlocks] using ih _

/-- C9 counterexample: a turn-result processed after a kill overwrites
the terminal status.  The killed single-turn session `exKilled` becomes
`completed` on a success result, because the result branch of
`consumeMessages` never checks the current status. -/
theorem killed_status_overwritten_by_result :
    exKilled.status = SessionStatus.killed
    ∧ (exKilled.handleMessage 9 (.result exResSucc)).1.status = SessionStatus.completed
    ∧ SessionStatus.killed ≠ SessionStatus.completed :=
  ⟨by decide, by decide, by decide⟩

/-- C9 (amended): terminal states are absorbing for kill, sendMessage,
assistant output and tool-use events, the safety-net timer and stream
errors; only a turn-result taking the completion branch can overwrite a
terminal status (see the counterexample). -/
theorem terminal_absorbing_except_turn_result (s : Session)
    (h : s.status.isTerminal = true) :
    (∀ now, s.kill now = s)
    ∧ (∀ t, (s.sendMessage t).1 = s)
    ∧ (∀ now blocks, ((s.handleMessage now (.assistant blocks)).1).status = s.status)
    ∧ s.safetyNetFire.1 = s
    ∧ (∀ now emsg, s.handleStreamError now emsg = s) := by
  refine ⟨?_, ?_, ?_, ?_, ?_⟩
  · intro now
    cases hs : s.status <;>
      simp [SessionStatus.isTerminal, hs] at h ⊢ <;>
      simp [Session.kill, hs]
  · intro t
    cases hs : s.status <;>
      simp [SessionStatus.isTerminal, hs] at h ⊢ <;>
      simp [Session.sendMessage, hs]
  · intro now blocks
    simp [Session.handleMessage, handleBlocks_status]
  · cases hs : s.status <;>
      simp [SessionStatus.isTerminal, hs] at h ⊢ <;>
      simp [Session.safetyNetFire, hs]
  · intro now emsg
    cases hs : s.status <;>
      simp [SessionStatus.isTerminal, hs] at h ⊢ <;>
      simp [Session.handleStreamError, hs]

theorem terminal_absorbing_except_turn_result_witness :
    (exSessT3.kill 50 = exSessT3) ∧ ((exSessT3.sendMessage "hi").1 = exSessT3) := by
  have h := terminal_absorbing_except_turn_result exSessT3 (by decide)
  exact ⟨h.1 50, h.2.1 "hi"⟩

set_option maxRecDepth 10000 in
/-- C8 counterexample: with the output buffer at its 200-entry cap when
`markFgOutputSeen` runs, one further output event evicts the oldest
entry, and `getCatchupOutput` returns the empty list instead of the one
new entry: the saved offset is not adjusted for eviction. -/
theorem catchup_empty_after_eviction :
    ((stepS (exSessFull.markFgOutputSeen "telegram:9")
        (.msg 3 (.assistant [.text "new"]))).1.getCatchupOutput "telegram:9" = [])
    ∧ ((stepS (exSessFull.markFgOutputSeen "telegram:9")
        (.msg 3 (.assistant [.text "new"]))).1.outputBuffer.getLast? = some "new")
    ∧ ([] : List String) ≠ ["new"] :=
  ⟨by decide, by decide, by decide⟩

theorem runS_assistant_appends (texts : List String) :
    ∀ (s : Session) (now : Nat),
      s.outputBuffer.length + texts.length ≤ OUTPUT_BUFFER_MAX →
      ((runS s (texts.map (fun t => SOp.msg now (.assistant [.text t])))).1.outputBuffer
          = s.outputBuffer ++ texts)
      ∧ ((runS s (texts.map (fun t => SOp.msg now (.assistant [.text t])))).1.fgOutputOffsets
          = s.fgOutputOffsets) := by
  induction texts with
  | nil => intro s now _; simp [runS]
  | cons t ts ih =>
      intro s now h
      have hlen : ¬ (OUTPUT_BUFFER_MAX < s.outputBuffer.length + 1) := by
        simp only [List.length_cons] at h
        omega
      have hstep :
          stepS s (SOp.msg now (.assistant [.text t]))
            = ({ s with waitingForInputFired := false,
                        outputBuffer := s.outputBuffer ++ [t] },
               [Effect.output t]) := by
        simp [stepS, Session.handleMessage, Session.handleBlocks, pushBuf, hlen]
      have ih2 := ih { s with waitingForInputFired := false,
                              outputBuffer := s.outputBuffer ++ [t] } now
        (by simp only [List.length_append, List.length_cons, List.length_nil] at h ⊢; omega)
      simp only [List.map_cons, runS, hstep]
      exact ⟨by simpa [List.append_assoc] using ih2.1, by simpa using ih2.2⟩

/-- C8 (amended): immediately after `markFgOutputSeen(ch)`,
`getCatchupOutput(ch)` is empty; and after N further output events it
returns exactly those N entries in arrival order, provided the buffer
stays within the 200-entry cap in between (when eviction occurs, only
the suffix still in the buffer past the saved offset is returned — see
the counterexample). -/
theorem catchup_exact_without_eviction :
    (∀ (s : Session) (ch : String), (s.markFgOutputSeen ch).getCatchupOutput ch = [])
    ∧ (∀ (s : Session) (ch : String) (texts : List String) (now : Nat),
        s.outputBuffer.length + texts.length ≤ OUTPUT_BUFFER_MAX →
        (runS (s.markFgOutputSeen ch)
            (texts.map (fun t => SOp.msg now (.assistant [.text t])))).1.getCatchupOutput ch
          = texts) := by
  constructor
  · intro s ch
    simp [Session.markFgOutputSeen, Session.getCatchupOutput, lookupAssoc_setAssoc_self]
  · intro s ch texts now h
    have hrun := runS_assistant_appends texts (s.markFgOutputSeen ch) now
      (by simpa [Session.markFgOutputSeen] using h)
    rcases hrun with ⟨hbuf, hoffs⟩
    have hbuf' : (runS (s.markFgOutputSeen ch)
        (texts.map (fun t => SOp.msg now (.assistant [.text t])))).1.outputBuffer
          = s.outputBuffer ++ texts := by
      simpa [Session.markFgOutputSeen] using hbuf
    have hoffs' : (runS (s.markFgOutputSeen ch)
        (texts.map (fun t => SOp.msg now (.assistant [.text t])))).1.fgOutputOffsets
          = setAssoc s.fgOutputOffsets ch s.outputBuffer.length := by
      simpa [Session.markFgOutputSeen] using hoffs
    simp only [Session.getCatchupOutput, hbuf', hoffs', lookupAssoc_setAssoc_self,
      Option.getD_some, List.length_append]
    rcases texts with _ | ⟨t, ts⟩
    · simp
    · have hlt : ¬ (s.outputBuffer.length + (t :: ts).length ≤ s.outputBuffer.length) := by
        simp
      rw [if_neg hlt]
      exact List.drop_left s.outputBuffer (t :: ts)

theorem catchup_exact_without_eviction_witness :
    ((exSessT1.markFgOutputSeen "tg").getCatchupOutput "tg" = [])
    ∧ ((runS (exSessT1.markFgOutputSeen "tg")
          ([ "a", "b" ].map (fun t => SOp.msg 7 (.assistant [.text t])))).1.getCatchupOutput "tg"
        = ["a", "b"]) :=
  ⟨catchup_exact_without_eviction.1 exSessT1 "tg",
   catchup_exact_without_eviction.2 exSessT1 "tg" ["a", "b"] 7 (by decide)⟩

theorem kill_of_terminal (s : Session) (now : Nat)
    (h : s.status.isTerminal = true) : s.kill now = s := by
  cases hs : s.status <;>
    simp [SessionStatus.isTerminal, hs] at h ⊢ <;>
    simp [Session.kill, hs]

theorem sameCore_refl (m : SessionManager) : SameCore m m :=
  ⟨Eq.refl _, Eq.refl _, Eq.refl _, Eq.refl _, Eq.refl _⟩

theorem sameCore_trans {a b c : SessionManager}
    (h1 : SameCore a b) (h2 : SameCore b c) : SameCore a c := by
  obtain ⟨x1, x2, x3, x4, x5⟩ := h1
  obtain ⟨y1, y2, y3, y4, y5⟩ := h2
  exact ⟨y1.trans x1, y2.trans x2, y3.trans x3, y4.trans x4, y5.trans x5⟩

theorem sameCore_pool {a b : SessionManager} (h : SameCore a b) : SamePool a b :=
  ⟨h.1, h.2.1⟩

theorem samePool_trans {a b c : SessionManager}
    (h1 : SamePool a b) (h2 : SamePool b c) : SamePool a c :=
  ⟨h2.1.trans h1.1, h2.2.trans h1.2⟩

theorem flushDebounced_core (m : SessionManager) (sid ch : String) :
    SameCore m (flushDebounced m sid ch).1 := by
  cases hl : lookupAssoc m.debounce (sid, ch) with
  | none => simp only [flushDebounced, hl]; exact sameCore_refl m
  | some buf => simp only [flushDebounced, hl]; exact ⟨rfl, rfl, rfl, rfl, rfl⟩

theorem flushChannels_core (chs : List String) :
    ∀ (m : SessionManager) (sid : String), SameCore m (flushChannels m sid chs).1 := by
  induction chs with
  | nil => intro m sid; exact sameCore_refl m
  | cons ch rest ih =>
      intro m sid
      have h1 := flushDebounced_core m sid ch
      have h2 := ih (flushDebounced m sid ch).1 sid
      simpa only [flushChannels] using sameCore_trans h1 h2

theorem cleanupSessionR_core (m : SessionManager) (sid : String) :
    SameCore m (cleanupSessionR m sid) :=
  ⟨rfl, rfl, rfl, rfl, rfl⟩

theorem appendDebounced_core (m : SessionManager) (sid ch text : String) :
    SameCore m (appendDebounced m sid ch text) := by
  cases hl : lookupAssoc m.debounce (sid, ch) with
  | none => simp only [appendDebounced, hl]; exact ⟨rfl, rfl, rfl, rfl, rfl⟩
  | some buf => simp only [appendDebounced, hl]; exact ⟨rfl, rfl, rfl, rfl, rfl⟩

theorem foldl_core {α : Type} (f : SessionManager → α → SessionManager)
    (hf : ∀ m a, SameCore m (f m a)) :
    ∀ (l : List α) (m : SessionManager), SameCore m (l.foldl f m) := by
  intro l
  induction l with
  | nil => intro m; exact sameCore_refl m
  | cons a rest ih =>
      intro m
      simpa only [List.foldl_cons] using sameCore_trans (hf m a) (ih (f m a))

theorem foldl_pair_core {α β : Type}
    (f : SessionManager × List β → α → SessionManager × List β)
    (hf : ∀ p a, SameCore p.1 (f p a).1) :
    ∀ (l : List α) (p : SessionManager × List β), SameCore p.1 (l.foldl f p).1 := by
  intro l
  induction l with
  | nil => intro p; exact sameCore_refl p.1
  | cons a rest ih =>
      intro p
      simpa only [List.foldl_cons] using sameCore_trans (hf p a) (ih (f p a))

theorem onAssistantText_core (m : SessionManager) (s : Session) (text : String) :
    SameCore m (onAssistantText m s text) := by
  unfold onAssistantText
  split
  · exact sameCore_refl m
  · exact foldl_core _ (fun m1 ch => appendDebounced_core m1 s.id ch text)
      s.foregroundChannels m

theorem onToolUse_core (m : SessionManager) (s : Session) :
    SameCore m (onToolUse m s).1 := by
  unfold onToolUse
  split
  · exact sameCore_refl m
  · refine foldl_pair_core _ ?_ s.foregroundChannels (m, [])
    intro p ch
    exact flushDebounced_core p.1 s.id ch

theorem onSessionComplete_core (m : SessionManager) (s : Session) :
    SameCore m (onSessionComplete m s).1 := by
  unfold onSessionComplete
  exact sameCore_trans (flushChannels_core s.foregroundChannels m s.id)
    (cleanupSessionR_core _ s.id)

theorem onBudgetExhausted_core (m : SessionManager) (s : Session) :
    SameCore m (onBudgetExhausted m s).1 := by
  unfold onBudgetExhausted
  exact sameCore_trans (flushChannels_core s.foregroundChannels m s.id)
    (cleanupSessionR_core _ s.id)

theorem onWaitingForInput_core (m : SessionManager) (s : Session) :
    SameCore m (onWaitingForInput m s).1 := by
  unfold onWaitingForInput
  exact flushChannels_core s.foregroundChannels m s.id

theorem persistSession_sessions (m : SessionManager) (s : Session) :
    (persistSession m s).sessions = m.sessions := by
  unfold persistSession
  cases hcs : s.claudeSessionId <;> simp only [hcs] <;> split <;> rfl

theorem persistSession_maxSessions (m : SessionManager) (s : Session) :
    (persistSession m s).maxSessions = m.maxSessions := by
  unfold persistSession
  cases hcs : s.claudeSessionId <;> simp only [hcs] <;> split <;> rfl

theorem persistSession_pool (m : SessionManager) (s : Session) :
    SamePool m (persistSession m s) :=
  ⟨persistSession_sessions m s, persistSession_maxSessions m s⟩

theorem persistSession_metrics_of_persisted (m : SessionManager) (s : Session)
    (h : (lookupAssoc m.persistedSessions s.id).isSome = true) :
    (persistSession m s).metrics = m.metrics := by
  unfold persistSession
  simp only [h, not_true_eq_false, if_false]
  cases s.claudeSessionId <;> rfl

/-- C4 counterexample: `SessionManager.kill` on an already-terminal
session is not notification-free: killing the failed — and persisted —
session of `exMgrTerminal` again delivers another completion
notification to the origin channel. -/
theorem mgr_kill_terminal_renotifies :
    ((lookupAssoc exMgrTerminal.sessions "s1").map (fun s => s.status.isTerminal)
        = some true)
    ∧ ((exMgrTerminal.kill "s1" 99999).2.2.filter
          (fun d => d.2 = NotifKind.completion) = [("telegram:9", NotifKind.completion)])
    ∧ ([("telegram:9", NotifKind.completion)] : List Delivery) ≠ [] :=
  ⟨by decide, by decide, by decide⟩

/-- C4 (amended): `Session.kill` on an already-terminal session is a
no-op — every field unchanged, no callbacks fired, no failure.
`SessionManager.kill` on a terminal session that is present in the
persisted index leaves the pooled session and the metrics unchanged and
still reports success, but it does re-send the completion notification
(see the counterexample); its callers (the claude_kill tool and the
gateway kill method) guard by checking terminal status first. -/
theorem kill_terminal_is_noop (s : Session) (h : s.status.isTerminal = true) :
    (∀ now, s.kill now = s)
    ∧ (∀ (m : SessionManager) (id : String) (now : Nat),
        lookupAssoc m.sessions id = some s →
        (lookupAssoc m.persistedSessions s.id).isSome = true →
        ((m.kill id now).2.1 = true
          ∧ lookupAssoc (m.kill id now).1.sessions id = some s
          ∧ (m.kill id now).1.metrics = m.metrics)) := by
  constructor
  · intro now; exact kill_of_terminal s now h
  · intro m id now hlook hper
    have hkill : s.kill now = s := kill_of_terminal s now h
    simp only [SessionManager.kill, hlook, hkill, hper, if_true]
    refine ⟨by trivial, ?_, ?_⟩
    · rw [(onSessionComplete_core _ s).1, persistSession_sessions]
      exact lookupAssoc_setAssoc_self m.sessions id s
    · rw [(onSessionComplete_core _ s).2.2.2.2]
      exact persistSession_metrics_of_persisted _ s (by simpa using hper)

theorem kill_terminal_is_noop_witness :
    ((exMgrTerminal.kill "s1" 77).2.1 = true)
    ∧ (lookupAssoc (exMgrTerminal.kill "s1" 77).1.sessions "s1" = some exSessT3)
    ∧ ((exMgrTerminal.kill "s1" 77).1.metrics = exMgrTerminal.metrics)
    ∧ (exSessT3.kill 77 = exSessT3) := by
  have h := kill_terminal_is_noop exSessT3 (by decide)
  have h2 := h.2 exMgrTerminal "s1" 77 (by decide) (by decide)
  exact ⟨h2.1, h2.2.1, h2.2.2, h.1 77⟩

theorem pushBuf_length_le (buf : List String) (t : String)
    (h : buf.length ≤ OUTPUT_BUFFER_MAX) :
    (pushBuf buf t).length ≤ OUTPUT_BUFFER_MAX := by
  have hlen : (buf ++ [t]).length = buf.length + 1 := by simp
  simp only [pushBuf]
  split
  · rename_i hgt
    rw [List.length_drop, hlen]
    rw [hlen] at hgt
    omega
  · rename_i hle
    rw [hlen]
    rw [hlen] at hle
    omega

theorem handleBlocks_buflen (blocks : List CBlock) :
    ∀ (s : Session), s.outputBuffer.length ≤ OUTPUT_BUFFER_MAX →
      (s.handleBlocks blocks).1.outputBuffer.length ≤ OUTPUT_BUFFER_MAX := by
  induction blocks with
  | nil => intro s h; simpa [Session.handleBlocks] using h
  | cons b rest ih =>
      intro s h
      cases b with
      | text t =>
          simpa [Session.handleBlocks] using
            ih { s with outputBuffer := pushBuf s.outputBuffer t }
              (pushBuf_length_le s.outputBuffer t h)
      | toolUse n => simpa [Session.handleBlocks] using ih s h

theorem result_preserves_buffer (s : Session) (now : Nat) (r : TurnResult) :
    ((s.handleMessage now (.result r)).1).outputBuffer = s.outputBuffer := by
  simp only [Session.handleMessage]
  split
  · split <;> rfl
  · split <;> rfl

theorem sendMessage_preserves_buffer (s : Session) (t : String) :
    ((s.sendMessage t).1).outputBuffer = s.outputBuffer := by
  simp only [Session.sendMessage]
  split
  · rfl
  · split
    · rfl
    · split <;> rfl

theorem stepS_buflen (s : Session) (op : SOp)
    (h : s.outputBuffer.length ≤ OUTPUT_BUFFER_MAX) :
    (stepS s op).1.outputBuffer.length ≤ OUTPUT_BUFFER_MAX := by
  cases op with
  | msg now m =>
      cases m with
      | init sid => simpa [stepS, Session.handleMessage] using h
      | assistant blocks =>
          simpa [stepS, Session.handleMessage] using
            handleBlocks_buflen blocks { s with waitingForInputFired := false } h
      | result r => simpa [stepS, result_preserves_buffer] using h
      | otherMsg => simpa [stepS, Session.handleMessage] using h
  | safetyNet =>
      simp only [stepS, Session.safetyNetFire]
      split <;> simpa using h
  | kill now =>
      simp only [stepS, Session.kill]
      split <;> simpa using h
  | send t => simpa [stepS, sendMessage_preserves_buffer] using h
  | streamErr now emsg =>
      simp only [stepS, Session.handleStreamError]
      split <;> simpa using h
  | markSeen ch => simpa [stepS, Session.markFgOutputSeen] using h
  | saveOffset ch => simpa [stepS, Session.saveFgOutputOffset] using h

/-- C5: after every session operation the output buffer holds at most
200 entries; at the cap, a push evicts the oldest entry first; and
`getOutput n` for `n` greater than the buffer length returns the whole
buffer. -/
theorem output_buffer_bounded :
    (∀ (s : Session) (ops : List SOp),
        s.outputBuffer.length ≤ OUTPUT_BUFFER_MAX →
        (runS s ops).1.outputBuffer.length ≤ OUTPUT_BUFFER_MAX)
    ∧ (∀ (buf : List String) (t : String), buf.length = OUTPUT_BUFFER_MAX →
        pushBuf buf t = buf.drop 1 ++ [t])
    ∧ (∀ (s : Session) (n : Nat), s.outputBuffer.length < n →
        s.getOutput (some n) = s.outputBuffer) := by
  refine ⟨?_, ?_, ?_⟩
  · intro s ops
    induction ops generalizing s with
    | nil => intro h; simpa [runS] using h
    | cons op rest ih =>
        intro h
        simpa [runS] using ih (stepS s op).1 (stepS_buflen s op h)
  · intro buf t h
    have hgt : OUTPUT_BUFFER_MAX < (buf ++ [t]).length := by
      simp [h]
    simp only [pushBuf, if_pos hgt]
    have : (buf ++ [t]).length - OUTPUT_BUFFER_MAX = 1 := by
      simp [h]
    rw [this, List.drop_append_of_le_length (by rw [h]; decide)]
  · intro s n h
    have hn : n ≠ 0 := by omega
    have hsub : s.outputBuffer.length - n = 0 := by omega
    simp [Session.getOutput, hn, hsub]

set_option maxRecDepth 10000 in
theorem output_buffer_bounded_witness :
    ((runS exSessT1 [SOp.msg 2 (.assistant [.text "hello"])]).1.outputBuffer.length
        ≤ OUTPUT_BUFFER_MAX)
    ∧ (pushBuf (List.replicate OUTPUT_BUFFER_MAX "x") "y"
        = (List.replicate OUTPUT_BUFFER_MAX "x").drop 1 ++ ["y"])
    ∧ (exSessT1.getOutput (some 5) = exSessT1.outputBuffer) :=
  ⟨output_buffer_bounded.1 exSessT1 [SOp.msg 2 (.assistant [.text "hello"])] (by decide),
   output_buffer_bounded.2.1 (List.replicate OUTPUT_BUFFER_MAX "x") "y" (by decide),
   output_buffer_bounded.2.2 exSessT1 5 (by decide)⟩

/-! ## C6: the waiting-for-input one-shot flag -/

theorem stepS_waiting_once (s : Session) (op : SOp)
    (hflag : s.waitingForInputFired = true)
    (hclear : clearsWaitingFlag op = false) :
    (stepS s op).1.waitingForInputFired = true
    ∧ Effect.waitingCallback ∉ (stepS s op).2 := by
  cases op with
  | msg now m =>
      cases m with
      | init sid => simp [stepS, Session.handleMessage, hflag]
      | assistant blocks => simp [clearsWaitingFlag] at hclear
      | result r =>
          simp only [stepS, Session.handleMessage]
          split
          · simp [hflag]
          · split <;> simp [hflag]
      | otherMsg => simp [stepS, Session.handleMessage, hflag]
  | safetyNet =>
      simp [stepS, Session.safetyNetFire, hflag]
  | kill now =>
      simp only [stepS, Session.kill]
      split <;> simp [hflag]
  | send t => simp [clearsWaitingFlag] at hclear
  | streamErr now emsg =>
      simp only [stepS, Session.handleStreamError]
      split <;> simp [hflag]
  | markSeen ch => simp [stepS, Session.markFgOutputSeen, hflag]
  | saveOffset ch => simp [stepS, Session.saveFgOutputOffset, hflag]

/-- C6: the waiting-for-input callback fires at most once per idle
period.  Once the one-shot flag is set (it is set exactly when the
callback fires, from the end-of-turn handler or the safety-net timer),
no trace free of flag-clearing operations — assistant engine events and
sendMessage calls — can fire the callback again; and after a clearing
operation it can fire again, witnessed by a sendMessage followed by a
successful end-of-turn on `exSessT2`. -/
theorem waiting_fires_once_per_idle_period :
    (∀ (s : Session) (ops : List SOp), s.waitingForInputFired = true →
        (∀ op ∈ ops, clearsWaitingFlag op = false) →
        Effect.waitingCallback ∉ (runS s ops).2)
    ∧ exSessT2.waitingForInputFired = true
    ∧ ((runS exSessT2 [SOp.send "go on", SOp.msg 5 (.result exResSucc)]).2.count
        Effect.waitingCallback = 1) := by
  refine ⟨?_, by decide, by decide⟩
  intro s ops
  induction ops generalizing s with
  | nil => intro _ _; simp [runS]
  | cons op rest ih =>
      intro hflag hclear
      have hstep := stepS_waiting_once s op hflag (hclear op (by simp))
      have hrest := ih (stepS s op).1 hstep.1 (fun o ho => hclear o (by simp [ho]))
      simp only [runS, List.mem_append]
      intro hmem
      rcases hmem with hmem | hmem
      · exact hstep.2 hmem
      · exact hrest hmem

theorem waiting_fires_once_witness :
    Effect.waitingCallback ∉ (runS exSessT2 [SOp.msg 5 (.result exResSucc),
        SOp.safetyNet, SOp.msg 6 (.result exResSucc)]).2 :=
  waiting_fires_once_per_idle_period.1 exSessT2
    [SOp.msg 5 (.result exResSucc), SOp.safetyNet, SOp.msg 6 (.result exResSucc)]
    (by decide) (by decide)

/-! ## C7: budget exhaustion notifies once per destination -/

theorem insertIfAbsent_nodup (l : List String) (x : String) (h : l.Nodup) :
    (insertIfAbsent l x).Nodup := by
  unfold insertIfAbsent
  split
  · exact h
  · rename_i hx
    simp [List.nodup_append, h, hx]

theorem jsSetOfList_nodup_aux (l : List String) :
    ∀ (acc : List String), acc.Nodup → (l.foldl insertIfAbsent acc).Nodup := by
  induction l with
  | nil => intro acc h; simpa using h
  | cons x rest ih =>
      intro acc h
      simpa only [List.foldl_cons] using ih (insertIfAbsent acc x) (insertIfAbsent_nodup acc x h)

theorem jsSetOfList_nodup (l : List String) : (jsSetOfList l).Nodup :=
  jsSetOfList_nodup_aux l [] List.nodup_nil

theorem flushDebounced_filter_notif (m : SessionManager) (sid ch : String) :
    ((flushDebounced m sid ch).2).filter isRouterNotif = [] := by
  cases hl : lookupAssoc m.debounce (sid, ch) with
  | none => simp [flushDebounced, hl]
  | some buf =>
      simp only [flushDebounced, hl]
      split <;> simp [isRouterNotif]

theorem flushChannels_filter_notif (chs : List String) :
    ∀ (m : SessionManager) (sid : String),
      ((flushChannels m sid chs).2).filter isRouterNotif = [] := by
  induction chs with
  | nil => intro m sid; simp [flushChannels]
  | cons ch rest ih =>
      intro m sid
      simp only [flushChannels, List.filter_append, flushDebounced_filter_notif,
        ih, List.append_nil]

theorem budget_map_filter_notif (chs : List String) :
    (chs.map (fun ch => (ch, NotifKind.budget))).filter isRouterNotif
      = chs.map (fun ch => (ch, NotifKind.budget)) := by
  induction chs with
  | nil => rfl
  | cons ch rest ih => simp [isRouterNotif, ih]

theorem onBudgetExhausted_snd (m : SessionManager) (s : Session) :
    (onBudgetExhausted m s).2
      = (flushChannels m s.id s.foregroundChannels).2
        ++ (notifChannels s).map (fun ch => (ch, NotifKind.budget)) := rfl

/-- C7: a budget-exhaustion turn-result on a running session marks it
failed, fires the dedicated budget callback and then the generic
completion callback exactly once each, and the router delivers exactly
one notification per destination: one budget notice to each of the
(duplicate-free) foreground-plus-origin channels, and no completion
notice, since the completion wiring skips it once `budgetExhausted` is
set. -/
theorem budget_exhaustion_notifies_once
    (m : SessionManager) (sid : String) (s : Session) (now : Nat) (r : TurnResult)
    (hlook : lookupAssoc m.sessions sid = some s)
    (hrun : s.status = .running)
    (hsub : r.subtype = "error_max_budget_usd") :
    ((s.handleMessage now (.result r)).2
        = [Effect.budgetCallback, Effect.completeCallback])
    ∧ ((s.handleMessage now (.result r)).1.status = .failed)
    ∧ (((m.deliverMsg sid now (.result r)).2).filter isRouterNotif
        = (notifChannels s).map (fun ch => (ch, NotifKind.budget)))
    ∧ (notifChannels s).Nodup := by
  have hcond : ¬ (s.multiTurn = true ∧ s.hasMessageStream = true
      ∧ r.subtype = "success") := by
    rintro ⟨-, -, hs⟩
    rw [hsub] at hs
    exact absurd hs (by decide)
  have hmsg : s.handleMessage now (.result r)
      = (({ s with result := some r, costUsd := r.totalCostUsd,
                   status := .failed, completedAt := some now,
                   streamEnded := s.streamEnded || s.hasMessageStream,
                   budgetExhausted := true } : Session),
         [Effect.budgetCallback, Effect.completeCallback]) := by
    simp only [Session.handleMessage]
    rw [if_neg hcond, if_pos hsub, if_neg (by rw [hsub]; decide)]
    simp
  refine ⟨by rw [hmsg], by rw [hmsg], ?_, jsSetOfList_nodup _⟩
  simp only [SessionManager.deliverMsg, hlook, hmsg, applyEffects, applyEffect]
  simp only [List.append_nil, List.filter_append, flushChannels_filter_notif]
  simp only [onBudgetExhausted_snd, List.filter_append, flushChannels_filter_notif,
    budget_map_filter_notif, List.nil_append]
  simp [isRouterNotif, notifChannels, originList]

theorem budget_exhaustion_notifies_once_witness :
    ((exSessT2.handleMessage 9 (.result exResBudget)).2
        = [Effect.budgetCallback, Effect.completeCallback])
    ∧ ((exSessT2.handleMessage 9 (.result exResBudget)).1.status = .failed)
    ∧ (((exMgrRunning.deliverMsg "s1" 9 (.result exResBudget)).2).filter isRouterNotif
        = (notifChannels exSessT2).map (fun ch => (ch, NotifKind.budget)))
    ∧ (notifChannels exSessT2).Nodup :=
  budget_exhaustion_notifies_once exMgrRunning "s1" exSessT2 9 exResBudget
    (by decide) (by decide) (by decide)

/-! ## C1: the concurrency cap -/

theorem countActive_cons (p : String × Session) (l : List (String × Session)) :
    countActive (p :: l)
      = (if p.2.status.isActive then 1 else 0) + countActive l := by
  simp only [countActive, List.filter_cons]
  split <;> simp [Nat.add_comm]

theorem countActive_pair_cons (k : String) (v : Session)
    (l : List (String × Session)) :
    countActive ((k, v) :: l)
      = (if v.status.isActive then 1 else 0) + countActive l :=
  countActive_cons (k, v) l

theorem countActive_setAssoc_le (l : List (String × Session)) (k : String)
    (v : Session) : countActive (setAssoc l k v) ≤ countActive l + 1 := by
  induction l with
  | nil =>
      simp only [setAssoc]
      rw [countActive_pair_cons]
      have h0 : countActive ([] : List (String × Session)) = 0 := rfl
      rw [h0]
      split <;> omega
  | cons p rest ih =>
      simp only [setAssoc]
      split
      · rw [countActive_pair_cons, countActive_cons]
        split <;> split <;> omega
      · rw [countActive_pair_cons, countActive_cons]
        omega

theorem countActive_setAssoc_of_lookup (l : List (String × Session)) (k : String)
    (v s : Session) (hl : lookupAssoc l k = some s)
    (him : v.status.isActive = true → s.status.isActive = true) :
    countActive (setAssoc l k v) ≤ countActive l := by
  induction l with
  | nil => simp [lookupAssoc] at hl
  | cons p rest ih =>
      simp only [lookupAssoc] at hl
      simp only [setAssoc]
      by_cases hk : p.1 = k
      · rw [if_pos hk] at hl ⊢
        rw [countActive_pair_cons, countActive_cons]
        have hs : p.2 = s := by injection hl
        rw [hs]
        by_cases hv : v.status.isActive = true
        · rw [if_pos hv, if_pos (him hv)]
        · rw [if_neg hv]
          omega
      · rw [if_neg hk] at hl ⊢
        rw [countActive_pair_cons, countActive_cons]
        have := ih hl
        omega

theorem countActive_sublist {l1 l2 : List (String × Session)}
    (h : List.Sublist l1 l2) :
    countActive l1 ≤ countActive l2 :=
  (h.filter _).length_le

theorem eraseAssoc_sublist {κ α : Type} [DecidableEq κ] (l : List (κ × α)) (k : κ) :
    List.Sublist (eraseAssoc l k) l := by
  induction l with
  | nil => simp [eraseAssoc]
  | cons p rest ih =>
      simp only [eraseAssoc]
      split
      · exact List.sublist_cons_self p rest
      · exact ih.cons₂ p

theorem countActive_map_le (l : List (String × Session))
    (f : String × Session → Session)
    (hf : ∀ p ∈ l, (f p).status.isActive = true → p.2.status.isActive = true) :
    countActive (l.map (fun p => (p.1, f p))) ≤ countActive l := by
  induction l with
  | nil => simp [countActive]
  | cons p rest ih =>
      simp only [List.map_cons]
      rw [countActive_pair_cons, countActive_cons]
      have h2 := ih (fun q hq => hf q (by simp [hq]))
      by_cases hfp : (f p).status.isActive = true
      · rw [if_pos hfp, if_pos (hf p (by simp) hfp)]
        omega
      · rw [if_neg hfp]
        omega

theorem kill_active (s : Session) (now : Nat)
    (h : (s.kill now).status.isActive = true) : s.status.isActive = true := by
  unfold Session.kill at h
  split at h
  · exact h
  · simp [SessionStatus.isActive] at h

theorem sendMessage_preserves_status (s : Session) (t : String) :
    ((s.sendMessage t).1).status = s.status := by
  simp only [Session.sendMessage]
  split
  · rfl
  · split
    · rfl
    · split <;> rfl

theorem safetyNetFire_status (s : Session) :
    (s.safetyNetFire.1).status = s.status := by
  simp only [Session.safetyNetFire]
  split <;> rfl

theorem if_status_inactive (c : Prop) [Decidable c] :
    SessionStatus.isActive
      (if c then SessionStatus.completed else SessionStatus.failed) = false := by
  split <;> rfl

theorem handleMessage_status_active (now : Nat) (emsg : EngineMsg) (s : Session)
    (h : (s.handleMessage now emsg).1.status.isActive = true) :
    s.status.isActive = true ∨ ∃ cid, emsg = EngineMsg.init cid := by
  cases emsg with
  | init cid => exact Or.inr ⟨cid, rfl⟩
  | assistant blocks =>
      left
      rw [Session.handleMessage, handleBlocks_status] at h
      exact h
  | result r =>
      left
      rw [Session.handleMessage] at h
      split at h
      · split at h <;> simpa using h
      · exfalso
        by_cases hb : r.subtype = "error_max_budget_usd"
        · rw [if_pos hb] at h
          simp [if_status_inactive] at h
        · rw [if_neg hb] at h
          simp [if_status_inactive] at h
  | otherMsg => left; exact h

theorem foldl_markSeen_status (chs : List String) :
    ∀ (s : Session),
      (chs.foldl (fun acc ch => acc.markFgOutputSeen ch) s).status = s.status := by
  induction chs with
  | nil => intro s; rfl
  | cons ch rest ih =>
      intro s
      simpa only [List.foldl_cons] using ih (s.markFgOutputSeen ch)

theorem applyEffect_pool (m : SessionManager) (s : Session) (e : Effect) :
    SamePool m (applyEffect m s e).1 := by
  cases e with
  | output text =>
      exact sameCore_pool (onAssistantText_core m s text)
  | toolUse n => exact sameCore_pool (onToolUse_core m s)
  | budgetCallback => exact sameCore_pool (onBudgetExhausted_core m s)
  | waitingCallback => exact sameCore_pool (onWaitingForInput_core m s)
  | completeCallback =>
      simp only [applyEffect]
      split
      · exact persistSession_pool m s
      · exact samePool_trans (persistSession_pool m s)
          (sameCore_pool (onSessionComplete_core (persistSession m s) s))

theorem applyEffect_session_status (m : SessionManager) (s : Session) (e : Effect) :
    ((applyEffect m s e).2.1).status = s.status := by
  cases e with
  | output text => simpa [applyEffect] using foldl_markSeen_status s.foregroundChannels s
  | toolUse n => rfl
  | budgetCallback => rfl
  | waitingCallback => rfl
  | completeCallback => rfl

theorem applyEffects_pool_status (effs : List Effect) :
    ∀ (m : SessionManager) (s : Session),
      SamePool m (applyEffects m s effs).1
      ∧ ((applyEffects m s effs).2.1).status = s.status := by
  induction effs with
  | nil => intro m s; exact ⟨⟨rfl, rfl⟩, rfl⟩
  | cons e rest ih =>
      intro m s
      have h1 := applyEffect_pool m s e
      have h2 := applyEffect_session_status m s e
      have h3 := ih (applyEffect m s e).1 (applyEffect m s e).2.1
      constructor
      · simpa only [applyEffects] using samePool_trans h1 h3.1
      · simpa only [applyEffects] using h3.2.trans h2

theorem cleanupStep_pool (now : Nat) (acc : SessionManager) (p : String × Session) :
    List.Sublist (cleanupStep now acc p).sessions acc.sessions
    ∧ (cleanupStep now acc p).maxSessions = acc.maxSessions := by
  simp only [cleanupStep]
  split
  · constructor
    · show List.Sublist (eraseAssoc (persistSession acc p.2).sessions p.1) acc.sessions
      rw [persistSession_sessions]
      exact eraseAssoc_sublist acc.sessions p.1
    · show (persistSession acc p.2).maxSessions = acc.maxSessions
      exact persistSession_maxSessions acc p.2
  · exact ⟨List.Sublist.refl _, rfl⟩

theorem cleanup_fold_pool (now : Nat) (l : List (String × Session)) :
    ∀ (acc : SessionManager),
      List.Sublist (l.foldl (cleanupStep now) acc).sessions acc.sessions
      ∧ (l.foldl (cleanupStep now) acc).maxSessions = acc.maxSessions := by
  induction l with
  | nil => intro acc; exact ⟨List.Sublist.refl _, rfl⟩
  | cons p rest ih =>
      intro acc
      have h1 := cleanupStep_pool now acc p
      have h2 := ih (cleanupStep now acc p)
      exact ⟨by simpa only [List.foldl_cons] using h2.1.trans h1.1,
             by simpa only [List.foldl_cons] using h2.2.trans h1.2⟩

theorem cleanup_pool (m : SessionManager) (now : Nat) :
    List.Sublist (m.cleanup now).sessions m.sessions
    ∧ (m.cleanup now).maxSessions = m.maxSessions := by
  have h := cleanup_fold_pool now m.sessions m
  simp only [SessionManager.cleanup]
  split
  · exact ⟨h.1, h.2⟩
  · exact ⟨h.1, h.2⟩

theorem stepM_cap (m : SessionManager) (op : MOp)
    (hv : validOp m op = true)
    (h : m.activeCount ≤ m.maxSessions) :
    (stepM m op).activeCount ≤ (stepM m op).maxSessions
    ∧ (stepM m op).maxSessions = m.maxSessions := by
  cases op with
  | spawn config id now =>
      by_cases hc : m.maxSessions ≤ m.activeCount
      · simp only [stepM, SessionManager.spawn, if_pos hc]
        exact ⟨h, trivial⟩
      · simp only [stepM, SessionManager.spawn, if_neg hc]
        unfold SessionManager.activeCount at hc
        refine ⟨?_, by trivial⟩
        exact le_trans (countActive_setAssoc_le m.sessions _ _)
          (by omega : countActive m.sessions + 1 ≤ m.maxSessions)
  | kill id now =>
      simp only [stepM, SessionManager.kill]
      cases hlook : lookupAssoc m.sessions id with
      | none => exact ⟨h, rfl⟩
      | some s =>
          simp only
          have hset : countActive (setAssoc m.sessions id (s.kill now))
              ≤ countActive m.sessions :=
            countActive_setAssoc_of_lookup m.sessions id (s.kill now) s hlook
              (kill_active s now)
          have hcore := onSessionComplete_core
            (persistSession (if (lookupAssoc m.persistedSessions (s.kill now).id).isSome
              then ({ m with sessions := setAssoc m.sessions id (s.kill now) }
                    : SessionManager)
              else { m with sessions := setAssoc m.sessions id (s.kill now),
                            metrics := recordSessionMetrics m.metrics (s.kill now) })
              (s.kill now)) (s.kill now)
          constructor
          · rw [SessionManager.activeCount, hcore.1, persistSession_sessions]
            rw [hcore.2.1, persistSession_maxSessions]
            split <;> exact le_trans hset h
          · rw [hcore.2.1, persistSession_maxSessions]
            split <;> rfl
  | killAll now =>
      refine ⟨?_, rfl⟩
      show countActive (m.sessions.map _) ≤ m.maxSessions
      refine le_trans (countActive_map_le m.sessions _ ?_) h
      intro p _ hact
      by_cases hc : p.2.status = SessionStatus.starting ∨ p.2.status = SessionStatus.running
      · rw [if_pos hc] at hact
        exact kill_active p.2 now hact
      · rw [if_neg hc] at hact
        exact hact
  | cleanup now =>
      have hc := cleanup_pool m now
      simp only [stepM]
      refine ⟨?_, hc.2⟩
      unfold SessionManager.activeCount
      rw [hc.2]
      exact le_trans (countActive_sublist hc.1) h
  | deliver sid now emsg =>
      simp only [stepM, SessionManager.deliverMsg]
      cases hlook : lookupAssoc m.sessions sid with
      | none => exact ⟨h, rfl⟩
      | some s =>
          simp only
          have hps := applyEffects_pool_status (s.handleMessage now emsg).2 m
            (s.handleMessage now emsg).1
          have hsess : (applyEffects m (s.handleMessage now emsg).1
              (s.handleMessage now emsg).2).1.sessions = m.sessions := hps.1.1
          have hmax : (applyEffects m (s.handleMessage now emsg).1
              (s.handleMessage now emsg).2).1.maxSessions = m.maxSessions := hps.1.2
          constructor
          · show countActive (setAssoc _ sid _) ≤ _
            rw [hsess, hmax]
            refine le_trans (countActive_setAssoc_of_lookup m.sessions sid _ s hlook ?_) h
            intro hact
            rw [hps.2] at hact
            rcases handleMessage_status_active now emsg s hact with hs | ⟨cid, hinit⟩
            · exact hs
            · subst hinit
              simp only [validOp, hlook] at hv
              simp only [decide_eq_true_eq] at hv
              rw [hv]
              rfl
          · exact hmax
  | safetyNet sid =>
      simp only [stepM, SessionManager.safetyNet]
      cases hlook : lookupAssoc m.sessions sid with
      | none => exact ⟨h, rfl⟩
      | some s =>
          simp only
          have hps := applyEffects_pool_status s.safetyNetFire.2 m s.safetyNetFire.1
          constructor
          · show countActive (setAssoc _ sid _) ≤ _
            rw [hps.1.1, hps.1.2]
            refine le_trans (countActive_setAssoc_of_lookup m.sessions sid _ s hlook ?_) h
            intro hact
            rw [hps.2, safetyNetFire_status] at hact
            exact hact
          · exact hps.1.2
  | send sid text =>
      simp only [stepM, SessionManager.send]
      cases hlook : lookupAssoc m.sessions sid with
      | none => exact ⟨h, rfl⟩
      | some s =>
          simp only
          constructor
          · show countActive (setAssoc _ sid _) ≤ _
            refine le_trans (countActive_setAssoc_of_lookup m.sessions sid _ s hlook ?_) h
            intro hact
            rw [sendMessage_preserves_status] at hact
            exact hact
          · trivial

/-- C1: spawning respects the concurrency cap.  A spawn attempted while
the active (starting or running) count is at the cap throws the capacity
error before touching any manager state — no session registered, no name
consumed, no metrics counter incremented, the manager unchanged — and
along every operation trace respecting the engine contract (`ValidRun`:
init messages only reach sessions still starting) the active count never
exceeds the cap. -/
theorem spawn_cap_enforced :
    (∀ (m : SessionManager) (config : SessionConfig) (id : String) (now : Nat),
        m.maxSessions ≤ m.activeCount →
        (m.spawn config id now = Except.error (maxSessionsMsg m.maxSessions)
          ∧ stepM m (.spawn config id now) = m))
    ∧ (∀ (m : SessionManager) (ops : List MOp),
        m.activeCount ≤ m.maxSessions → ValidRun m ops = true →
        (runM m ops).activeCount ≤ (runM m ops).maxSessions) := by
  constructor
  · intro m config id now hfull
    constructor
    · simp only [SessionManager.spawn, if_pos hfull]
    · simp only [stepM, SessionManager.spawn, if_pos hfull]
  · intro m ops
    induction ops generalizing m with
    | nil => intro h _; simpa [runM] using h
    | cons op rest ih =>
        intro h hvr
        simp only [ValidRun, Bool.and_eq_true] at hvr
        have hstep := stepM_cap m op hvr.1 h
        simpa [runM] using ih (stepM m op) hstep.1 hvr.2

theorem spawn_cap_enforced_witness :
    (exMgrFull.spawn exCfg "s9" 4 = Except.error (maxSessionsMsg exMgrFull.maxSessions)
      ∧ stepM exMgrFull (.spawn exCfg "s9" 4) = exMgrFull)
    ∧ ((runM {} [MOp.spawn exCfg "s1" 0, MOp.kill "s1" 3]).activeCount
        ≤ (runM {} [MOp.spawn exCfg "s1" 0, MOp.kill "s1" 3]).maxSessions) :=
  ⟨spawn_cap_enforced.1 exMgrFull exCfg "s9" 4 (by decide),
   spawn_cap_enforced.2 {} [MOp.spawn exCfg "s1" 0, MOp.kill "s1" 3]
     (by decide) (by decide)⟩

end ClaudePlugin
